import Mathlib

/-!
Shallow embedding of `src/packages/near-membrane-dom/src/browser-realm.ts`.

The module under verification orchestrates the creation of a sandboxed
iframe-based virtual environment: it validates its target, creates a hidden
sandboxed iframe, memoizes the default set of bridgeable global keys, caches
one blue (host-side) connector per host document in a weak map, configures a
`VirtualEnvironment` (links, prototype remaps, lazy and eager property
remaps), and finally either detaches the iframe or keeps it alive while
cycling its document.

Collaborators imported from sibling packages (`./window` and
`@locker/near-membrane-base`) are not part of the analysed sources; they are
modelled from the specification and are marked as such in their doc comments.
Machine state (the module-level connector weak map, the module-level
`defaultGlobalOwnKeys` cell, and the host document tree) is threaded
explicitly through a `World` record.
-/

namespace NearMembrane

/-! ### Data model and embedded operations -/

abbrev Key := String

/-- A JavaScript value, to the precision the analysed checks need:
`typeof x !== 'object' || x === null` distinguishes exactly non-null
objects (functions have `typeof` `"function"`, `null` has `typeof`
`"object"`). Object and function identities are numbered. -/
inductive JSVal where
  | undef
  | nullV
  | objV (id : Nat)
  | funcV (id : Nat)
  | strV (s : String)
  | numV (n : Int)
  | boolV (b : Bool)
deriving DecidableEq, Repr

/-- The JavaScript `typeof` operator on the modelled values. -/
def JSVal.typeofStr : JSVal → String
  | JSVal.undef => "undefined"
  | JSVal.nullV => "object"
  | JSVal.objV _ => "object"
  | JSVal.funcV _ => "function"
  | JSVal.strV _ => "string"
  | JSVal.numV _ => "number"
  | JSVal.boolV _ => "boolean"

/-- Association-list lookup on `Nat` keys (models map/weak-map reads). -/
def lookupA {α : Type} : List (Nat × α) → Nat → Option α
  | [], _ => none
  | (k', v) :: rest, k => if k' = k then some v else lookupA rest k

/-- Association-list update-or-insert on `Nat` keys (models map writes). -/
def setA {α : Type} : List (Nat × α) → Nat → α → List (Nat × α)
  | [], k, v => [(k, v)]
  | (k', v') :: rest, k, v =>
      if k' = k then (k, v) :: rest else (k', v') :: setA rest k v

/-- The host `document` reference reachable from the virtualization target:
its identity (used both as weak-map key and as a node of the host tree), its
`body` content root, and its `lastChild`. -/
structure DocRef where
  docId : Nat
  body : Option Nat
  lastChild : Option Nat
deriving DecidableEq, Repr

/-- Modelled from the spec: the record produced by the collaborator
`getCachedGlobalObjectReferences` of the `./window` module (not under
`src/`) — the host document, the host window, `Document.prototype`,
`EventTarget.prototype` and the own keys of `EventTarget.prototype`. -/
structure BlueRefs where
  document : DocRef
  windowId : Nat
  documentProtoId : Nat
  eventTargetProtoId : Nat
  eventTargetProtoOwnKeys : List Key
deriving DecidableEq, Repr

/-- The mutable machine state the module touches: the module-level weak map
from host document to blue connector, the module-level
`defaultGlobalOwnKeys` cell, a fresh-identity counter, and the host document
tree as a map from parent node to its ordered children. -/
structure World where
  blueDocumentToBlueCreateHooksCallbackMap : List (Nat × Nat)
  defaultGlobalOwnKeys : Option (List Key)
  nextId : Nat
  children : List (Nat × List Nat)
deriving DecidableEq, Repr

/-- The pristine state at module load. -/
def World.start : World :=
  { blueDocumentToBlueCreateHooksCallbackMap := []
    defaultGlobalOwnKeys := none
    nextId := 0
    children := [] }

/-- Ordered children of a node of the host tree. -/
def childrenOf (m : List (Nat × List Nat)) (p : Nat) : List Nat :=
  (lookupA m p).getD []

/-- `Node.prototype.appendChild`: append as last child. -/
def appendChildAt (m : List (Nat × List Nat)) (p c : Nat) : List (Nat × List Nat) :=
  setA m p (childrenOf m p ++ [c])

/-- `Element.prototype.remove`: detach a node from its parent. -/
def removeChildAt (m : List (Nat × List Nat)) (p c : Nat) : List (Nat × List Nat) :=
  setA m p ((childrenOf m p).erase c)

/-- The DOM side effects `createDetachableIframe` performs, in order. -/
inductive IframeEvent where
  | createdElement (iframeId : Nat)
  | styleDisplayNone (iframeId : Nat)
  | sandboxAttributeSet (iframeId : Nat) (value : String)
  | appendedChild (parentId : Nat) (iframeId : Nat)
deriving DecidableEq, Repr

/-- Operations performed on the sandbox (red) document. -/
inductive DocOp where
  | openDoc
  | closeDoc
deriving DecidableEq, Repr

def IFRAME_SANDBOX_ATTRIBUTE_VALUE : String := "allow-same-origin allow-scripts"

/-- Modelled from the spec: `filterWindowKeys` of the `./window` module (not
under `src/`) — a pure, order-preserving filter removing window keys that
are inherently unforgeable on the global object. -/
def windowUnforgeableKeys : List Key := ["document", "location", "top"]

/-- Modelled from the spec: see `windowUnforgeableKeys`. -/
def filterWindowKeys (keys : List Key) : List Key :=
  keys.filter (fun k => !windowUnforgeableKeys.contains k)

/-- Modelled from the spec: `unforgeablePoisonedWindowKeys` of the
`./window` module (not under `src/`) — the fixed block-list of poisoned
window keys; the Chromium bug cited in the source concerns the
`window.window` getter. -/
def unforgeablePoisonedWindowKeys : List Key := ["window"]

/-- Modelled from the spec: the global-object-owned descriptor names that
`removeWindowDescriptors` of the `./window` module (not under `src/`)
strips from endowments — the names claimed by the root, prototype-chain and
event-target bridging. -/
def windowOwnedDescriptorKeys : List Key :=
  ["window", "self", "document", "location", "top", "EventTarget"]

/-- Modelled from the spec: `removeWindowDescriptors` deletes from a
descriptor map every name already claimed by the global object. -/
def removeWindowDescriptors (names : List Key) : List Key :=
  names.filter (fun k => !windowOwnedDescriptorKeys.contains k)

/-- Modelled from the spec: `VirtualEnvironment.prototype.lazyRemapProperties`
of the membrane base package (not under `src/`) installs lazy bridging
accessors for the given own keys, skipping the optional exclusion list. -/
def lazyRemapSurface (keys : List Key) (exclude : Option (List Key)) : List Key :=
  match exclude with
  | none => keys
  | some ex => keys.filter (fun k => !ex.contains k)

/-- The options bag accepted by `createIframeVirtualEnvironment`; absent
fields are `none` (JavaScript `undefined`). Endowments are modelled by
their property names, the only aspect the analysed code branches on. -/
structure EnvOptions where
  distortionCallback : Option Nat := none
  endowments : Option (List Key) := none
  globalObjectShape : JSVal := JSVal.undef
  keepAlive : Option Bool := none
  hooks : Option Nat := none
deriving DecidableEq, Repr

/-- Environment parameters standing for the collaborators that are not part
of the analysed sources: the reference resolver, and the key enumerations
`getFilteredGlobalOwnKeys` would return for the fresh red window, for the
host global object, and for a caller-supplied shape object. -/
structure Params where
  resolve : Nat → Option BlueRefs
  redWindowKeys : List Key
  hostGlobalKeys : List Key
  shapeKeys : Nat → List Key
  globalThisAvailable : Bool

/-- Modelled from the spec: `getFilteredGlobalOwnKeys` of the membrane base
package (not under `src/`) enumerates the bridgeable own keys of a
global-object-shaped value; the model reads the enumeration off `Params`. -/
def getFilteredGlobalOwnKeysOfShape (p : Params) (v : JSVal) : List Key :=
  match v with
  | JSVal.objV i => p.shapeKeys i
  | _ => []

/-- `doc.body ?? doc.lastChild` — the parent the iframe is appended to. -/
def resolveIframeParent (d : DocRef) : Option Nat :=
  match d.body with
  | some b => some b
  | none => d.lastChild

/-- What `createDetachableIframe` produced: the fresh iframe, its parent in
the host tree, and the ordered trace of its DOM side effects. -/
structure CreatedIframe where
  iframeId : Nat
  parentId : Nat
  events : List IframeEvent
deriving DecidableEq, Repr

/-- `createDetachableIframe(doc)`: create an iframe element, pick the parent
(`doc.body ?? doc.lastChild`), hide the iframe, set its sandbox attribute,
and append it as last child of the parent. Appending to a missing parent is
the one failure (`null` parent would throw in JavaScript). -/
def createDetachableIframe (doc : DocRef) (w : World) :
    Option CreatedIframe × World :=
  let iframeId := w.nextId
  let w1 : World := { w with nextId := w.nextId + 1 }
  match resolveIframeParent doc with
  | none => (none, w1)
  | some parentId =>
      (some { iframeId := iframeId
              parentId := parentId
              events := [IframeEvent.createdElement iframeId,
                         IframeEvent.styleDisplayNone iframeId,
                         IframeEvent.sandboxAttributeSet iframeId
                           IFRAME_SANDBOX_ATTRIBUTE_VALUE,
                         IframeEvent.appendedChild parentId iframeId] },
       { w1 with children := appendChildAt w1.children parentId iframeId })

/-- `typeof globalObjectShape !== 'object' || globalObjectShape === null`,
the guard selecting the cached default key set. -/
def shouldUseDefaultGlobalOwnKeysFor (shape : JSVal) : Bool :=
  shape.typeofStr != "object" || shape == JSVal.nullV

/-- Lines 113–115: populate the module-level `defaultGlobalOwnKeys` cell on
the first call that uses the default set, from the red window's keys. -/
def populateDefaultKeys (p : Params) (shape : JSVal) (w : World) : World :=
  if shouldUseDefaultGlobalOwnKeysFor shape && w.defaultGlobalOwnKeys.isNone then
    { w with defaultGlobalOwnKeys := some (filterWindowKeys p.redWindowKeys) }
  else w

/-- Lines 116–122: look the blue connector up in the weak map keyed by the
host document; on a miss create one (fresh identity) and store it. -/
def acquireBlueConnector (w : World) (docId : Nat) : Nat × World :=
  match lookupA w.blueDocumentToBlueCreateHooksCallbackMap docId with
  | some c => (c, w)
  | none =>
      (w.nextId,
       { w with
         nextId := w.nextId + 1
         blueDocumentToBlueCreateHooksCallbackMap :=
           setA w.blueDocumentToBlueCreateHooksCallbackMap docId w.nextId })

/-- Lines 146–150: the own-key list handed to `lazyRemapProperties` on the
window — the (already populated) default cache, or the filtered keys of the
caller-supplied shape. -/
def computeWindowKeysUsed (p : Params) (shape : JSVal)
    (cached : Option (List Key)) : List Key :=
  if shouldUseDefaultGlobalOwnKeysFor shape then cached.getD []
  else filterWindowKeys (getFilteredGlobalOwnKeysOfShape p shape)

/-- The observable configuration of the returned `VirtualEnvironment`,
together with the iframe lifecycle facts of the call. -/
structure EnvResult where
  blueConnectorId : Nat
  redConnectorId : Nat
  intrinsicsLinked : Bool
  linkCalls : List (List Key)
  remapProtoCalls : List (Nat × Nat)
  windowTargetId : Nat
  windowKeysUsed : List Key
  windowExcludeList : Option (List Key)
  endowmentEagerKeys : Option (List Key)
  eventTargetLazyKeys : List Key
  iframeId : Nat
  iframeParentId : Nat
  iframeEvents : List IframeEvent
  keepAliveUsed : Bool
  redDocOps : List DocOp
deriving DecidableEq, Repr

/-- The lazily bridged global surface on the window: the keys passed to
`lazyRemapProperties` minus the exclusion list. -/
def EnvResult.windowLazyKeys (r : EnvResult) : List Key :=
  lazyRemapSurface r.windowKeysUsed r.windowExcludeList

/-- The whole bridged global surface on the window: the lazy keys plus the
eagerly remapped (filtered) endowment keys. -/
def EnvResult.windowBridgedSurface (r : EnvResult) : List Key :=
  r.windowLazyKeys ++ (r.endowmentEagerKeys.getD [])

/-- The success path of `createIframeVirtualEnvironment` after the iframe
exists (lines 111–180): populate the default key cache if needed, get or
create the blue connector, create the red connector, configure the
environment (links, prototype remap, lazy window keys with the poisoned-key
exclusion, filtered endowments, event-target keys), then detach the iframe
or keep it alive cycling its document. -/
def configure (p : Params) (o : EnvOptions) (br : BlueRefs) (ifr : CreatedIframe)
    (w2 : World) : EnvResult × World :=
  let keepAlive := o.keepAlive.getD false
  let w3 := populateDefaultKeys p o.globalObjectShape w2
  let acq := acquireBlueConnector w3 br.document.docId
  let w5 : World := { acq.2 with nextId := acq.2.nextId + 1 }
  let w6 :=
    if keepAlive then w5
    else { w5 with children := removeChildAt w5.children ifr.parentId ifr.iframeId }
  ({ blueConnectorId := acq.1
     redConnectorId := acq.2.nextId
     intrinsicsLinked := true
     linkCalls :=
       (if p.globalThisAvailable then [["document"]]
        else [["window", "document"]]) ++
         [["__proto__", "__proto__", "__proto__"]]
     remapProtoCalls := [(br.document.docId, br.documentProtoId)]
     windowTargetId := br.windowId
     windowKeysUsed :=
       computeWindowKeysUsed p o.globalObjectShape w3.defaultGlobalOwnKeys
     windowExcludeList :=
       if keepAlive then none else some unforgeablePoisonedWindowKeys
     endowmentEagerKeys := o.endowments.map removeWindowDescriptors
     eventTargetLazyKeys := br.eventTargetProtoOwnKeys
     iframeId := ifr.iframeId
     iframeParentId := ifr.parentId
     iframeEvents := ifr.events
     keepAliveUsed := keepAlive
     redDocOps := if keepAlive then [DocOp.openDoc, DocOp.closeDoc] else [] },
   w6)

/-- `createIframeVirtualEnvironment(globalObject, options)` over `World`:
validate the target (`typeof !== 'object' || === null`), resolve the blue
references through the collaborator, create the detachable iframe, then run
the configuration pass. -/
def createIframeVirtualEnvironment (p : Params) (globalObject : JSVal)
    (options : Option EnvOptions) (w : World) :
    Except String EnvResult × World :=
  match globalObject with
  | JSVal.objV gid =>
    match p.resolve gid with
    | none => (Except.error "Invalid virtualization target.", w)
    | some blueRefs =>
      let o := options.getD {}
      match createDetachableIframe blueRefs.document w with
      | (none, w1) => (Except.error "appendChild target is null", w1)
      | (some ifr, w2) =>
        let res := configure p o blueRefs ifr w2
        (Except.ok res.1, res.2)
  | _ => (Except.error "Missing global object virtualization target.", w)

def refsA : BlueRefs :=
  { document := { docId := 1, body := some 2, lastChild := some 3 }
    windowId := 4, documentProtoId := 5, eventTargetProtoId := 6
    eventTargetProtoOwnKeys := ["addEventListener", "dispatchEvent"] }

def refsB : BlueRefs :=
  { document := { docId := 7, body := some 8, lastChild := none }
    windowId := 9, documentProtoId := 10, eventTargetProtoId := 11
    eventTargetProtoOwnKeys := [] }

def paramsA : Params :=
  { resolve := fun g => if g = 0 then some refsA else if g = 1 then some refsB else none
    redWindowKeys := ["Array", "window", "document", "Object"]
    hostGlobalKeys := ["Array", "window", "hostOnly"]
    shapeKeys := fun _ => ["window", "shapeOnly", "location"]
    globalThisAvailable := true }

def paramsNone : Params :=
  { resolve := fun _ => none
    redWindowKeys := []
    hostGlobalKeys := []
    shapeKeys := fun _ => []
    globalThisAvailable := true }

/-- The iframe created by `createDetachableIframe(refsA.document)` from the
pristine state. -/
def ciA : CreatedIframe :=
  { iframeId := 0
    parentId := 2
    events := [IframeEvent.createdElement 0, IframeEvent.styleDisplayNone 0,
               IframeEvent.sandboxAttributeSet 0 IFRAME_SANDBOX_ATTRIBUTE_VALUE,
               IframeEvent.appendedChild 2 0] }

/-- The world right after `createDetachableIframe(refsA.document)`. -/
def wIfrA : World :=
  { blueDocumentToBlueCreateHooksCallbackMap := []
    defaultGlobalOwnKeys := none
    nextId := 1
    children := [(2, [0])] }

/-- The options of the keep-alive fixture run. -/
def optsKA : EnvOptions :=
  { keepAlive := some true, endowments := some ["foo", "window", "document"] }

/-- Result of the detach-mode fixture run
`createIframeVirtualEnvironment paramsA (objV 0) none World.start`. -/
def resA : EnvResult :=
  { blueConnectorId := 1
    redConnectorId := 2
    intrinsicsLinked := true
    linkCalls := [["document"], ["__proto__", "__proto__", "__proto__"]]
    remapProtoCalls := [(1, 5)]
    windowTargetId := 4
    windowKeysUsed := ["Array", "window", "Object"]
    windowExcludeList := some ["window"]
    endowmentEagerKeys := none
    eventTargetLazyKeys := ["addEventListener", "dispatchEvent"]
    iframeId := 0
    iframeParentId := 2
    iframeEvents := [IframeEvent.createdElement 0, IframeEvent.styleDisplayNone 0,
                     IframeEvent.sandboxAttributeSet 0 IFRAME_SANDBOX_ATTRIBUTE_VALUE,
                     IframeEvent.appendedChild 2 0]
    keepAliveUsed := false
    redDocOps := [] }

/-- Final world of the detach-mode fixture run. -/
def worldA : World :=
  { blueDocumentToBlueCreateHooksCallbackMap := [(1, 1)]
    defaultGlobalOwnKeys := some ["Array", "window", "Object"]
    nextId := 3
    children := [(2, [])] }

/-- Result of the keep-alive fixture run
`createIframeVirtualEnvironment paramsA (objV 0) (some optsKA) World.start`. -/
def resKA : EnvResult :=
  { resA with
      windowExcludeList := none
      endowmentEagerKeys := some ["foo"]
      keepAliveUsed := true
      redDocOps := [DocOp.openDoc, DocOp.closeDoc] }

/-- Final world of the keep-alive fixture run. -/
def worldKA : World :=
  { worldA with children := [(2, [0])] }

/-- Result of the second detach run against the same document
(`createIframeVirtualEnvironment paramsA (objV 0) none worldA`). -/
def resA2 : EnvResult :=
  { resA with
      redConnectorId := 4
      iframeId := 3
      iframeEvents := [IframeEvent.createdElement 3, IframeEvent.styleDisplayNone 3,
                       IframeEvent.sandboxAttributeSet 3 IFRAME_SANDBOX_ATTRIBUTE_VALUE,
                       IframeEvent.appendedChild 2 3] }

/-- Final world of the second detach run against the same document. -/
def worldA2 : World :=
  { worldA with nextId := 5 }

/-- The claim's reading of C8 (following the spec text): the default key
cache would be derived from the host global object's keys. -/
def defaultKeysFromHostGlobal (p : Params) : List Key :=
  filterWindowKeys p.hostGlobalKeys

/-- A document with no content root: the fallback case of C7. -/
def docNoBody : DocRef := { docId := 20, body := none, lastChild := some 21 }

/-- The iframe of the fallback fixture. -/
def ciNB : CreatedIframe :=
  { iframeId := 0
    parentId := 21
    events := [IframeEvent.createdElement 0, IframeEvent.styleDisplayNone 0,
               IframeEvent.sandboxAttributeSet 0 IFRAME_SANDBOX_ATTRIBUTE_VALUE,
               IframeEvent.appendedChild 21 0] }

/-- The world after the fallback fixture call. -/
def wNB : World :=
  { blueDocumentToBlueCreateHooksCallbackMap := []
    defaultGlobalOwnKeys := none
    nextId := 1
    children := [(21, [0])] }

/-- Machine-state invariant: the connector weak map has no duplicate
document keys, no duplicate connector values, every stored connector was
allocated below the fresh-identity counter, and every child node recorded in
the host tree was allocated below the counter. -/
structure WorldInv (w : World) : Prop where
  mapKeysNodup : (w.blueDocumentToBlueCreateHooksCallbackMap.map Prod.fst).Nodup
  mapValsNodup : (w.blueDocumentToBlueCreateHooksCallbackMap.map Prod.snd).Nodup
  mapValsLt : ∀ kv ∈ w.blueDocumentToBlueCreateHooksCallbackMap, kv.2 < w.nextId
  childLt : ∀ pc ∈ w.children, ∀ c ∈ pc.2, c < w.nextId

/-- Result of the fixture run against the second document
(`createIframeVirtualEnvironment paramsA (objV 1) none worldA`). -/
def resB2 : EnvResult :=
  { blueConnectorId := 4
    redConnectorId := 5
    intrinsicsLinked := true
    linkCalls := [["document"], ["__proto__", "__proto__", "__proto__"]]
    remapProtoCalls := [(7, 10)]
    windowTargetId := 9
    windowKeysUsed := ["Array", "window", "Object"]
    windowExcludeList := some ["window"]
    endowmentEagerKeys := none
    eventTargetLazyKeys := []
    iframeId := 3
    iframeParentId := 8
    iframeEvents := [IframeEvent.createdElement 3, IframeEvent.styleDisplayNone 3,
                     IframeEvent.sandboxAttributeSet 3 IFRAME_SANDBOX_ATTRIBUTE_VALUE,
                     IframeEvent.appendedChild 8 3]
    keepAliveUsed := false
    redDocOps := [] }

/-- Final world of the fixture run against the second document. -/
def worldB2 : World :=
  { blueDocumentToBlueCreateHooksCallbackMap := [(1, 1), (7, 4)]
    defaultGlobalOwnKeys := some ["Array", "window", "Object"]
    nextId := 6
    children := [(2, []), (8, [])] }

/-! ### Lemmas and claim theorems -/

theorem lazyRemapSurface_none (keys : List Key) :
    lazyRemapSurface keys none = keys := rfl

theorem mem_lazyRemapSurface_some {keys ex : List Key} {k : Key} :
    k ∈ lazyRemapSurface keys (some ex) ↔ k ∈ keys ∧ k ∉ ex := by
  simp [lazyRemapSurface]

theorem mem_removeWindowDescriptors {names : List Key} {k : Key} :
    k ∈ removeWindowDescriptors names ↔ k ∈ names ∧ k ∉ windowOwnedDescriptorKeys := by
  simp [removeWindowDescriptors]

/-- Association-list reads after an update: the written key. -/
theorem lookupA_setA_self {α : Type} (m : List (Nat × α)) (k : Nat) (v : α) :
    lookupA (setA m k v) k = some v := by
  induction m with
  | nil => simp [setA, lookupA]
  | cons kv rest ih =>
      by_cases hk : kv.1 = k
      · simp [setA, hk, lookupA]
      · simpa [setA, hk, lookupA] using ih

/-- Association-list reads after an update: any other key. -/
theorem lookupA_setA_ne {α : Type} (m : List (Nat × α)) (k d : Nat) (v : α)
    (h : d ≠ k) : lookupA (setA m k v) d = lookupA m d := by
  have hkd : ¬k = d := fun hh => h hh.symm
  induction m with
  | nil => simp [setA, lookupA, hkd]
  | cons kv rest ih =>
      by_cases hk : kv.1 = k
      · subst hk
        simp [setA, lookupA, hkd]
      · simp [setA, hk, lookupA, ih]

/-- Updating an absent key appends the entry. -/
theorem setA_eq_append {α : Type} (m : List (Nat × α)) (k : Nat) (v : α)
    (h : lookupA m k = none) : setA m k v = m ++ [(k, v)] := by
  induction m with
  | nil => simp [setA]
  | cons kv rest ih =>
      by_cases hk : kv.1 = k
      · simp [lookupA, hk] at h
      · simp [lookupA, hk] at h
        simp [setA, hk, ih h]

/-- A successful lookup exhibits a list member. -/
theorem lookupA_some_mem {α : Type} {m : List (Nat × α)} {k : Nat} {v : α}
    (h : lookupA m k = some v) : (k, v) ∈ m := by
  induction m with
  | nil => simp [lookupA] at h
  | cons kv rest ih =>
      by_cases hk : kv.1 = k
      · simp [lookupA, hk] at h
        subst h
        simp [← hk]
      · simp [lookupA, hk] at h
        exact List.mem_cons_of_mem _ (ih h)

/-- A failed lookup means the key is absent. -/
theorem lookupA_none_not_mem {α : Type} {m : List (Nat × α)} {k : Nat}
    (h : lookupA m k = none) : k ∉ m.map Prod.fst := by
  induction m with
  | nil => simp
  | cons kv rest ih =>
      by_cases hk : kv.1 = k
      · simp [lookupA, hk] at h
      · simp [lookupA, hk] at h
        simp only [List.map_cons, List.mem_cons]
        push_neg
        exact ⟨fun hh => hk hh.symm, ih h⟩

/-- Every entry of an updated list is the written pair or an old entry. -/
theorem mem_setA {α : Type} {m : List (Nat × α)} {k : Nat} {v : α} {pc : Nat × α}
    (h : pc ∈ setA m k v) : pc = (k, v) ∨ pc ∈ m := by
  induction m with
  | nil => simpa [setA] using h
  | cons kv rest ih =>
      by_cases hk : kv.1 = k
      · simp [setA, hk] at h
        rcases h with h | h
        · exact Or.inl h
        · exact Or.inr (List.mem_cons_of_mem _ h)
      · simp [setA, hk] at h
        rcases h with h | h
        · exact Or.inr (by simp [h])
        · rcases ih h with h' | h'
          · exact Or.inl h'
          · exact Or.inr (List.mem_cons_of_mem _ h')

/-- In a list whose values are distinct, distinct keys hold distinct
values. -/
theorem lookupA_vals_injective {α : Type} {m : List (Nat × α)}
    (hvals : (m.map Prod.snd).Nodup)
    {d d' : Nat} {c c' : α} (hne : d ≠ d')
    (h1 : lookupA m d = some c) (h2 : lookupA m d' = some c') : c ≠ c' := by
  intro hcc
  subst hcc
  have hmem1 := lookupA_some_mem h1
  have hmem2 := lookupA_some_mem h2
  have := List.inj_on_of_nodup_map hvals hmem1 hmem2 rfl
  exact hne (congrArg Prod.fst this)

/-- Inversion for a successful `createDetachableIframe`: the parent is
`doc.body ?? doc.lastChild`, the iframe identity is fresh, the event trace
is create–hide–sandbox–append, and the world gains the iframe as the
parent's last child. -/
theorem createDetachableIframe_some {d : DocRef} {w : World} {ifr : CreatedIframe}
    {w2 : World} (h : createDetachableIframe d w = (some ifr, w2)) :
    resolveIframeParent d = some ifr.parentId ∧
    ifr.iframeId = w.nextId ∧
    ifr.events = [IframeEvent.createdElement w.nextId,
      IframeEvent.styleDisplayNone w.nextId,
      IframeEvent.sandboxAttributeSet w.nextId IFRAME_SANDBOX_ATTRIBUTE_VALUE,
      IframeEvent.appendedChild ifr.parentId w.nextId] ∧
    w2 = { w with
            nextId := w.nextId + 1
            children := appendChildAt w.children ifr.parentId w.nextId } := by
  rw [createDetachableIframe] at h
  split at h
  · exact absurd h (by simp)
  · simp only [Prod.mk.injEq, Option.some.injEq] at h
    obtain ⟨h1, h2⟩ := h
    subst h2
    subst h1
    refine ⟨?_, rfl, rfl, rfl⟩
    assumption

/-- Inversion for a successful `createIframeVirtualEnvironment`: the target
was a non-null object, the blue references resolved, the iframe was created,
and the result is that of the configuration pass. -/
theorem run_ok_elim {p : Params} {g : JSVal} {o : Option EnvOptions} {w : World}
    {r : EnvResult} {w' : World}
    (h : createIframeVirtualEnvironment p g o w = (Except.ok r, w')) :
    ∃ gid br ifr w2, g = JSVal.objV gid ∧ p.resolve gid = some br ∧
      createDetachableIframe br.document w = (some ifr, w2) ∧
      configure p (o.getD {}) br ifr w2 = (r, w') := by
  rw [createIframeVirtualEnvironment.eq_def] at h
  split at h
  next gid =>
    split at h
    next => exact absurd h (by simp)
    next br hres =>
      split at h
      next w1 hifr => exact absurd h (by simp)
      next ifr w2 hifr =>
        simp only [Prod.mk.injEq, Except.ok.injEq] at h
        exact ⟨gid, br, ifr, w2, rfl, hres, hifr, Prod.ext h.1 h.2⟩
  next => exact absurd h (by simp)

theorem populateDefaultKeys_children (p : Params) (s : JSVal) (w : World) :
    (populateDefaultKeys p s w).children = w.children := by
  rw [populateDefaultKeys]
  split <;> rfl

theorem populateDefaultKeys_nextId (p : Params) (s : JSVal) (w : World) :
    (populateDefaultKeys p s w).nextId = w.nextId := by
  rw [populateDefaultKeys]
  split <;> rfl

theorem populateDefaultKeys_map (p : Params) (s : JSVal) (w : World) :
    (populateDefaultKeys p s w).blueDocumentToBlueCreateHooksCallbackMap =
      w.blueDocumentToBlueCreateHooksCallbackMap := by
  rw [populateDefaultKeys]
  split <;> rfl

theorem populateDefaultKeys_some (p : Params) (s : JSVal) {w : World}
    {ks : List Key} (h : w.defaultGlobalOwnKeys = some ks) :
    populateDefaultKeys p s w = w := by
  rw [populateDefaultKeys]
  simp [h]

theorem populateDefaultKeys_none_useDefault (p : Params) {s : JSVal} {w : World}
    (hs : shouldUseDefaultGlobalOwnKeysFor s = true)
    (h : w.defaultGlobalOwnKeys = none) :
    populateDefaultKeys p s w =
      { w with defaultGlobalOwnKeys := some (filterWindowKeys p.redWindowKeys) } := by
  rw [populateDefaultKeys]
  simp [hs, h]

theorem populateDefaultKeys_custom (p : Params) {s : JSVal} (w : World)
    (hs : shouldUseDefaultGlobalOwnKeysFor s = false) :
    populateDefaultKeys p s w = w := by
  rw [populateDefaultKeys]
  simp [hs]

theorem acquireBlueConnector_hit {w : World} {docId : Nat} {c : Nat}
    (h : lookupA w.blueDocumentToBlueCreateHooksCallbackMap docId = some c) :
    acquireBlueConnector w docId = (c, w) := by
  rw [acquireBlueConnector]
  simp [h]

theorem acquireBlueConnector_miss {w : World} {docId : Nat}
    (h : lookupA w.blueDocumentToBlueCreateHooksCallbackMap docId = none) :
    acquireBlueConnector w docId =
      (w.nextId,
       { w with
         nextId := w.nextId + 1
         blueDocumentToBlueCreateHooksCallbackMap :=
           setA w.blueDocumentToBlueCreateHooksCallbackMap docId w.nextId }) := by
  rw [acquireBlueConnector]
  simp [h]

theorem acquireBlueConnector_children (w : World) (docId : Nat) :
    (acquireBlueConnector w docId).2.children = w.children := by
  rw [acquireBlueConnector]
  split <;> rfl

theorem acquireBlueConnector_default (w : World) (docId : Nat) :
    (acquireBlueConnector w docId).2.defaultGlobalOwnKeys = w.defaultGlobalOwnKeys := by
  rw [acquireBlueConnector]
  split <;> rfl

theorem configure_fst_keepAliveUsed (p : Params) (o : EnvOptions) (br : BlueRefs)
    (ifr : CreatedIframe) (w2 : World) :
    (configure p o br ifr w2).1.keepAliveUsed = o.keepAlive.getD false := by
  simp [configure]

theorem configure_fst_windowExcludeList (p : Params) (o : EnvOptions) (br : BlueRefs)
    (ifr : CreatedIframe) (w2 : World) :
    (configure p o br ifr w2).1.windowExcludeList =
      if o.keepAlive.getD false then none else some unforgeablePoisonedWindowKeys := by
  simp [configure]

theorem configure_fst_windowKeysUsed (p : Params) (o : EnvOptions) (br : BlueRefs)
    (ifr : CreatedIframe) (w2 : World) :
    (configure p o br ifr w2).1.windowKeysUsed =
      computeWindowKeysUsed p o.globalObjectShape
        (populateDefaultKeys p o.globalObjectShape w2).defaultGlobalOwnKeys := by
  simp [configure]

theorem configure_fst_endowmentEagerKeys (p : Params) (o : EnvOptions) (br : BlueRefs)
    (ifr : CreatedIframe) (w2 : World) :
    (configure p o br ifr w2).1.endowmentEagerKeys =
      o.endowments.map removeWindowDescriptors := by
  simp [configure]

theorem configure_fst_redDocOps (p : Params) (o : EnvOptions) (br : BlueRefs)
    (ifr : CreatedIframe) (w2 : World) :
    (configure p o br ifr w2).1.redDocOps =
      if o.keepAlive.getD false then [DocOp.openDoc, DocOp.closeDoc] else [] := by
  simp [configure]

theorem configure_fst_iframeId (p : Params) (o : EnvOptions) (br : BlueRefs)
    (ifr : CreatedIframe) (w2 : World) :
    (configure p o br ifr w2).1.iframeId = ifr.iframeId := by
  simp [configure]

theorem configure_fst_iframeParentId (p : Params) (o : EnvOptions) (br : BlueRefs)
    (ifr : CreatedIframe) (w2 : World) :
    (configure p o br ifr w2).1.iframeParentId = ifr.parentId := by
  simp [configure]

theorem configure_fst_iframeEvents (p : Params) (o : EnvOptions) (br : BlueRefs)
    (ifr : CreatedIframe) (w2 : World) :
    (configure p o br ifr w2).1.iframeEvents = ifr.events := by
  simp [configure]

theorem configure_fst_blueConnectorId (p : Params) (o : EnvOptions) (br : BlueRefs)
    (ifr : CreatedIframe) (w2 : World) :
    (configure p o br ifr w2).1.blueConnectorId =
      (acquireBlueConnector (populateDefaultKeys p o.globalObjectShape w2)
        br.document.docId).1 := by
  simp [configure]

theorem configure_snd_children (p : Params) (o : EnvOptions) (br : BlueRefs)
    (ifr : CreatedIframe) (w2 : World) :
    (configure p o br ifr w2).2.children =
      if o.keepAlive.getD false then
        (populateDefaultKeys p o.globalObjectShape w2).children
      else
        removeChildAt (populateDefaultKeys p o.globalObjectShape w2).children
          ifr.parentId ifr.iframeId := by
  simp only [configure]
  split <;> simp [acquireBlueConnector_children, populateDefaultKeys_children]

theorem configure_snd_default (p : Params) (o : EnvOptions) (br : BlueRefs)
    (ifr : CreatedIframe) (w2 : World) :
    (configure p o br ifr w2).2.defaultGlobalOwnKeys =
      (populateDefaultKeys p o.globalObjectShape w2).defaultGlobalOwnKeys := by
  simp only [configure]
  split <;> simp [acquireBlueConnector_default]

theorem configure_snd_map (p : Params) (o : EnvOptions) (br : BlueRefs)
    (ifr : CreatedIframe) (w2 : World) :
    (configure p o br ifr w2).2.blueDocumentToBlueCreateHooksCallbackMap =
      (acquireBlueConnector (populateDefaultKeys p o.globalObjectShape w2)
        br.document.docId).2.blueDocumentToBlueCreateHooksCallbackMap := by
  simp only [configure]
  split <;> rfl

theorem configure_snd_nextId (p : Params) (o : EnvOptions) (br : BlueRefs)
    (ifr : CreatedIframe) (w2 : World) :
    (configure p o br ifr w2).2.nextId =
      (acquireBlueConnector (populateDefaultKeys p o.globalObjectShape w2)
        br.document.docId).2.nextId + 1 := by
  simp only [configure]
  split <;> rfl

/-- C6: a target that is not a non-null object, or one the reference
resolver rejects, makes `createIframeVirtualEnvironment` throw synchronously
with the machine state untouched — in particular no iframe was created or
attached. -/
theorem invalid_target_throws_before_attach (p : Params) (options : Option EnvOptions)
    (w : World) (g : JSVal) :
    (JSVal.typeofStr g ≠ "object" ∨ g = JSVal.nullV →
      createIframeVirtualEnvironment p g options w =
        (Except.error "Missing global object virtualization target.", w)) ∧
    (∀ gid, g = JSVal.objV gid → p.resolve gid = none →
      createIframeVirtualEnvironment p g options w =
        (Except.error "Invalid virtualization target.", w)) := by
  constructor
  · intro hg
    cases g <;> try rfl
    rcases hg with hg | hg
    · exact absurd rfl hg
    · exact JSVal.noConfusion hg
  · rintro gid rfl hres
    simp [createIframeVirtualEnvironment, hres]

/-- Witness for C6 at concrete inputs: `null` and a resolver failure. -/
theorem invalid_target_throws_before_attach_witness :
    createIframeVirtualEnvironment paramsNone JSVal.nullV none World.start =
      (Except.error "Missing global object virtualization target.", World.start) ∧
    createIframeVirtualEnvironment paramsNone (JSVal.objV 0) none World.start =
      (Except.error "Invalid virtualization target.", World.start) :=
  ⟨(invalid_target_throws_before_attach paramsNone none World.start JSVal.nullV).1
      (Or.inr rfl),
   (invalid_target_throws_before_attach paramsNone none World.start (JSVal.objV 0)).2
      0 rfl rfl⟩

/-- C9: a `globalObjectShape` option that is not a non-null object of
`typeof` `"object"` (a function, a string, `null`, …) does not fail the
call: it behaves exactly as if `globalObjectShape` had been omitted. -/
theorem invalid_shape_behaves_as_omitted (p : Params) (g : JSVal) (w : World)
    (o : EnvOptions)
    (h : shouldUseDefaultGlobalOwnKeysFor o.globalObjectShape = true) :
    createIframeVirtualEnvironment p g (some o) w =
      createIframeVirtualEnvironment p g
        (some { o with globalObjectShape := JSVal.undef }) w := by
  rw [createIframeVirtualEnvironment.eq_def, createIframeVirtualEnvironment.eq_def]
  cases g <;> try rfl
  next gid =>
    rcases hres : p.resolve gid with _ | br
    · simp [hres]
    · simp only [hres, Option.getD_some]
      rcases hifr : createDetachableIframe br.document w with ⟨ifr?, w2⟩
      rcases ifr? with _ | ifr
      · rfl
      · have hundef : shouldUseDefaultGlobalOwnKeysFor JSVal.undef = true := rfl
        have hcfg : configure p o br ifr w2 =
            configure p { o with globalObjectShape := JSVal.undef } br ifr w2 := by
          simp [configure, populateDefaultKeys, computeWindowKeysUsed, h, hundef]
        simp [hcfg]

/-- Witness for C9: a function-valued shape behaves like an omitted one. -/
theorem invalid_shape_behaves_as_omitted_witness :
    shouldUseDefaultGlobalOwnKeysFor (JSVal.funcV 7) = true ∧
    createIframeVirtualEnvironment paramsA (JSVal.objV 0)
        (some { globalObjectShape := JSVal.funcV 7 }) World.start =
      createIframeVirtualEnvironment paramsA (JSVal.objV 0)
        (some { globalObjectShape := JSVal.undef }) World.start :=
  ⟨by decide,
   invalid_shape_behaves_as_omitted paramsA (JSVal.objV 0) World.start
     { globalObjectShape := JSVal.funcV 7 } (by decide)⟩

/-- C10: in `createDetachableIframe`, by the time the append event is in the
trace, the hide-style event and the sandbox-attribute event already are:
the container is never attached without its restrictions in place. -/
theorem sandbox_and_style_before_append {d : DocRef} {w : World}
    {ifr : CreatedIframe} {w2 : World}
    (h : createDetachableIframe d w = (some ifr, w2)) :
    ∀ n, IframeEvent.appendedChild ifr.parentId ifr.iframeId ∈ ifr.events.take n →
      IframeEvent.styleDisplayNone ifr.iframeId ∈ ifr.events.take n ∧
      IframeEvent.sandboxAttributeSet ifr.iframeId IFRAME_SANDBOX_ATTRIBUTE_VALUE ∈
        ifr.events.take n := by
  obtain ⟨hp, hid, hev, hw⟩ := createDetachableIframe_some h
  intro n happ
  rw [hev] at happ ⊢
  rw [hid] at happ ⊢
  rcases n with _ | _ | _ | _ | n
  · simp at happ
  · simp [List.take] at happ
  · simp [List.take] at happ
  · simp [List.take] at happ
  · constructor <;> simp [List.take]

/-- Witness for C10 at the concrete fixture, with the full trace taken. -/
theorem sandbox_and_style_before_append_witness :
    IframeEvent.styleDisplayNone ciA.iframeId ∈ ciA.events.take 4 ∧
    IframeEvent.sandboxAttributeSet ciA.iframeId IFRAME_SANDBOX_ATTRIBUTE_VALUE ∈
      ciA.events.take 4 :=
  sandbox_and_style_before_append
    (rfl : createDetachableIframe refsA.document World.start = (some ciA, wIfrA))
    4 (by decide)

/-- C1: a poisoned window key is excluded from the lazily bridged window
surface exactly when `keepAlive` is false or omitted: in that case the
poisoned set is passed as the exclusion list and the key is absent; with
`keepAlive: true` no exclusion list is passed, so the key is bridged
whenever it is among the eligible window keys. -/
theorem poisoned_keys_bridged_iff_keepAlive {p : Params} {g : JSVal}
    {o : Option EnvOptions} {w : World} {r : EnvResult} {w' : World}
    (h : createIframeVirtualEnvironment p g o w = (Except.ok r, w'))
    {k : Key} (hk : k ∈ unforgeablePoisonedWindowKeys) :
    r.keepAliveUsed = (o.getD {}).keepAlive.getD false ∧
    (r.keepAliveUsed = false →
      r.windowExcludeList = some unforgeablePoisonedWindowKeys ∧
      k ∉ r.windowLazyKeys) ∧
    (r.keepAliveUsed = true →
      r.windowExcludeList = none ∧
      (k ∈ r.windowLazyKeys ↔ k ∈ r.windowKeysUsed)) := by
  obtain ⟨gid, br, ifr, w2, hg, hres, hifr, hcfg⟩ := run_ok_elim h
  have hr : r = (configure p (o.getD {}) br ifr w2).1 := (congrArg Prod.fst hcfg).symm
  subst hr
  refine ⟨configure_fst_keepAliveUsed p (o.getD {}) br ifr w2, ?_, ?_⟩
  · intro hka
    rw [configure_fst_keepAliveUsed] at hka
    refine ⟨by rw [configure_fst_windowExcludeList, hka]; rfl, ?_⟩
    intro hmem
    unfold EnvResult.windowLazyKeys at hmem
    rw [configure_fst_windowExcludeList, hka] at hmem
    simp only [if_false, Bool.false_eq_true] at hmem
    rw [mem_lazyRemapSurface_some] at hmem
    exact hmem.2 hk
  · intro hka
    rw [configure_fst_keepAliveUsed] at hka
    refine ⟨by rw [configure_fst_windowExcludeList, hka]; rfl, ?_⟩
    unfold EnvResult.windowLazyKeys
    rw [configure_fst_windowExcludeList, hka]
    simp [lazyRemapSurface]

/-- Witness for C1: the keep-alive fixture run bridges `"window"`, the
detach fixture run excludes it. -/
theorem poisoned_keys_bridged_iff_keepAlive_witness :
    ("window" ∈ unforgeablePoisonedWindowKeys) ∧
    (resKA.keepAliveUsed = ((some optsKA).getD {}).keepAlive.getD false ∧
     (resKA.keepAliveUsed = false →
       resKA.windowExcludeList = some unforgeablePoisonedWindowKeys ∧
       "window" ∉ resKA.windowLazyKeys) ∧
     (resKA.keepAliveUsed = true →
       resKA.windowExcludeList = none ∧
       ("window" ∈ resKA.windowLazyKeys ↔ "window" ∈ resKA.windowKeysUsed))) :=
  ⟨by decide,
   poisoned_keys_bridged_iff_keepAlive
     (h := (rfl : createIframeVirtualEnvironment paramsA (JSVal.objV 0)
        (some optsKA) World.start = (Except.ok resKA, worldKA)))
     (by decide)⟩

/-- C5: endowment keys colliding with global-object-owned descriptor names
are stripped before the eager remap, so no owned name survives into the
eagerly remapped set, and the bridged window surface is exactly the lazy
(GlobalKeySet-derived) keys united with the filtered endowment names. -/
theorem endowments_filtered_surface {p : Params} {g : JSVal}
    {o : Option EnvOptions} {w : World} {r : EnvResult} {w' : World}
    (h : createIframeVirtualEnvironment p g o w = (Except.ok r, w'))
    {es : List Key} (he : (o.getD {}).endowments = some es) :
    r.endowmentEagerKeys = some (removeWindowDescriptors es) ∧
    (∀ k ∈ windowOwnedDescriptorKeys, k ∉ (r.endowmentEagerKeys.getD [])) ∧
    (∀ k, k ∈ r.windowBridgedSurface ↔
      (k ∈ r.windowLazyKeys ∨ (k ∈ es ∧ k ∉ windowOwnedDescriptorKeys))) := by
  obtain ⟨gid, br, ifr, w2, hg, hres, hifr, hcfg⟩ := run_ok_elim h
  have hr : r = (configure p (o.getD {}) br ifr w2).1 := (congrArg Prod.fst hcfg).symm
  subst hr
  refine ⟨by rw [configure_fst_endowmentEagerKeys, he]; rfl, ?_, ?_⟩
  · intro k hkOwned hkMem
    rw [configure_fst_endowmentEagerKeys, he] at hkMem
    simp only [Option.map_some', Option.getD_some] at hkMem
    rw [mem_removeWindowDescriptors] at hkMem
    exact hkMem.2 hkOwned
  · intro k
    unfold EnvResult.windowBridgedSurface
    rw [configure_fst_endowmentEagerKeys, he]
    simp [mem_removeWindowDescriptors]

/-- Witness for C5 on the keep-alive fixture run: of the endowments
`foo`, `window`, `document` only `foo` survives, and the surface is the
lazy keys plus `foo`. -/
theorem endowments_filtered_surface_witness :
    (((some optsKA).getD {}).endowments = some ["foo", "window", "document"]) ∧
    (resKA.endowmentEagerKeys =
        some (removeWindowDescriptors ["foo", "window", "document"]) ∧
     (∀ k ∈ windowOwnedDescriptorKeys, k ∉ (resKA.endowmentEagerKeys.getD [])) ∧
     (∀ k, k ∈ resKA.windowBridgedSurface ↔
       (k ∈ resKA.windowLazyKeys ∨
         (k ∈ ["foo", "window", "document"] ∧ k ∉ windowOwnedDescriptorKeys)))) :=
  ⟨by decide,
   endowments_filtered_surface
     (h := (rfl : createIframeVirtualEnvironment paramsA (JSVal.objV 0)
        (some optsKA) World.start = (Except.ok resKA, worldKA)))
     (by decide)⟩

/-- Inversion for a failed `createDetachableIframe`: no parent node. -/
theorem createDetachableIframe_none {d : DocRef} {w : World} {w1 : World}
    (h : createDetachableIframe d w = (none, w1)) :
    resolveIframeParent d = none ∧ w1 = { w with nextId := w.nextId + 1 } := by
  rw [createDetachableIframe] at h
  split at h
  · simp only [Prod.mk.injEq] at h
    constructor
    · assumption
    · exact h.2.symm
  · exact absurd h (by simp)

/-- The `defaultGlobalOwnKeys` cell, once populated, is preserved by any
call, whatever its outcome. -/
theorem run_preserves_default {p : Params} {g : JSVal} {o : Option EnvOptions}
    {w : World} {ks : List Key} (hks : w.defaultGlobalOwnKeys = some ks) :
    (createIframeVirtualEnvironment p g o w).2.defaultGlobalOwnKeys = some ks := by
  rw [createIframeVirtualEnvironment.eq_def]
  split
  next gid =>
    split
    next => exact hks
    next br hres =>
      split
      next w1 hifr =>
        obtain ⟨hp, hw1⟩ := createDetachableIframe_none hifr
        subst hw1
        exact hks
      next ifr w2 hifr =>
        obtain ⟨hp, hid, hev, hw2⟩ := createDetachableIframe_some hifr
        subst hw2
        show (configure p (o.getD {}) br ifr _).2.defaultGlobalOwnKeys = some ks
        have hks2 : ({ w with
            nextId := w.nextId + 1
            children := appendChildAt w.children ifr.parentId w.nextId } :
              World).defaultGlobalOwnKeys = some ks := hks
        rw [configure_snd_default, populateDefaultKeys_some _ _ hks2]
        exact hks2
  next => exact hks

/-- A successful call that selects the default key set while the cell is
already populated uses the cached sequence verbatim. -/
theorem run_ok_keysUsed_cached {p : Params} {g : JSVal} {o : Option EnvOptions}
    {w : World} {r : EnvResult} {w' : World} {ks : List Key}
    (h : createIframeVirtualEnvironment p g o w = (Except.ok r, w'))
    (hs : shouldUseDefaultGlobalOwnKeysFor (o.getD {}).globalObjectShape = true)
    (hks : w.defaultGlobalOwnKeys = some ks) :
    r.windowKeysUsed = ks := by
  obtain ⟨gid, br, ifr, w2, hg, hres, hifr, hcfg⟩ := run_ok_elim h
  have hr : r = (configure p (o.getD {}) br ifr w2).1 := (congrArg Prod.fst hcfg).symm
  subst hr
  obtain ⟨hp, hid, hev, hw2⟩ := createDetachableIframe_some hifr
  subst hw2
  have hks2 : ({ w with
      nextId := w.nextId + 1
      children := appendChildAt w.children ifr.parentId w.nextId } :
        World).defaultGlobalOwnKeys = some ks := hks
  rw [configure_fst_windowKeysUsed, populateDefaultKeys_some _ _ hks2]
  simp [computeWindowKeysUsed, hs, hks]

/-- A successful call that selects the default key set while the cell is
empty populates it from the red window keys and uses that sequence. -/
theorem run_ok_default_first {p : Params} {g : JSVal} {o : Option EnvOptions}
    {w : World} {r : EnvResult} {w' : World}
    (h : createIframeVirtualEnvironment p g o w = (Except.ok r, w'))
    (hs : shouldUseDefaultGlobalOwnKeysFor (o.getD {}).globalObjectShape = true)
    (hnone : w.defaultGlobalOwnKeys = none) :
    w'.defaultGlobalOwnKeys = some (filterWindowKeys p.redWindowKeys) ∧
    r.windowKeysUsed = filterWindowKeys p.redWindowKeys := by
  obtain ⟨gid, br, ifr, w2, hg, hres, hifr, hcfg⟩ := run_ok_elim h
  have hr : r = (configure p (o.getD {}) br ifr w2).1 := (congrArg Prod.fst hcfg).symm
  have hw' : w' = (configure p (o.getD {}) br ifr w2).2 := (congrArg Prod.snd hcfg).symm
  subst hr
  subst hw'
  obtain ⟨hp, hid, hev, hw2⟩ := createDetachableIframe_some hifr
  subst hw2
  have hpop := populateDefaultKeys_none_useDefault p (s := (o.getD {}).globalObjectShape)
    (w := { w with
             nextId := w.nextId + 1
             children := appendChildAt w.children ifr.parentId w.nextId }) hs hnone
  constructor
  · rw [configure_snd_default, hpop]
  · rw [configure_fst_windowKeysUsed, hpop]
    simp [computeWindowKeysUsed, hs]

/-- C4: the default global key cache is write-once — once populated it is
never reassigned by any later call, every later default-shape call uses the
identical cached sequence, and the one call that finds it empty populates it
(from the red window keys) and uses that sequence. -/
theorem default_global_own_keys_write_once (p : Params) (g : JSVal)
    (o : Option EnvOptions) (w : World) :
    (∀ ks, w.defaultGlobalOwnKeys = some ks →
      (createIframeVirtualEnvironment p g o w).2.defaultGlobalOwnKeys = some ks ∧
      (∀ r w', createIframeVirtualEnvironment p g o w = (Except.ok r, w') →
        shouldUseDefaultGlobalOwnKeysFor (o.getD {}).globalObjectShape = true →
        r.windowKeysUsed = ks)) ∧
    (∀ r w', createIframeVirtualEnvironment p g o w = (Except.ok r, w') →
      shouldUseDefaultGlobalOwnKeysFor (o.getD {}).globalObjectShape = true →
      w.defaultGlobalOwnKeys = none →
      w'.defaultGlobalOwnKeys = some (filterWindowKeys p.redWindowKeys) ∧
      r.windowKeysUsed = filterWindowKeys p.redWindowKeys) := by
  constructor
  · intro ks hks
    exact ⟨run_preserves_default hks,
           fun r w' hrun hs => run_ok_keysUsed_cached hrun hs hks⟩
  · intro r w' hrun hs hnone
    exact run_ok_default_first hrun hs hnone

/-- Witness for C4: the second run against `worldA` (cache populated by the
first fixture run) leaves the cache untouched and reuses it. -/
theorem default_global_own_keys_write_once_witness :
    (worldA.defaultGlobalOwnKeys = some ["Array", "window", "Object"]) ∧
    (createIframeVirtualEnvironment paramsA (JSVal.objV 0) none
        worldA).2.defaultGlobalOwnKeys = some ["Array", "window", "Object"] ∧
    resA2.windowKeysUsed = ["Array", "window", "Object"] :=
  ⟨by decide,
   ((default_global_own_keys_write_once paramsA (JSVal.objV 0) none worldA).1
      ["Array", "window", "Object"] (by decide)).1,
   ((default_global_own_keys_write_once paramsA (JSVal.objV 0) none worldA).1
      ["Array", "window", "Object"] (by decide)).2 resA2 worldA2 rfl (by decide)⟩

/-- Counterexample to C8 as stated: with distinct host-global and
red-window enumerations, the populated cache comes from the red (sandbox
iframe) window keys and differs from the host-global derivation. -/
theorem default_keys_from_host_global_counterexample :
    (createIframeVirtualEnvironment paramsA (JSVal.objV 0) none
        World.start).2.defaultGlobalOwnKeys =
      some (filterWindowKeys paramsA.redWindowKeys) ∧
    (createIframeVirtualEnvironment paramsA (JSVal.objV 0) none
        World.start).2.defaultGlobalOwnKeys ≠
      some (defaultKeysFromHostGlobal paramsA) := by
  decide

/-- C8 amended: the call that populates the default key cache derives it
from the freshly created sandbox iframe's window (the red window), not from
the host global object. -/
theorem default_keys_derived_from_red_window {p : Params} {g : JSVal}
    {o : Option EnvOptions} {w : World} {r : EnvResult} {w' : World}
    (h : createIframeVirtualEnvironment p g o w = (Except.ok r, w'))
    (hs : shouldUseDefaultGlobalOwnKeysFor (o.getD {}).globalObjectShape = true)
    (hnone : w.defaultGlobalOwnKeys = none) :
    w'.defaultGlobalOwnKeys = some (filterWindowKeys p.redWindowKeys) :=
  (run_ok_default_first h hs hnone).1

/-- Witness for the amended C8 on the first fixture run. -/
theorem default_keys_derived_from_red_window_witness :
    (World.start.defaultGlobalOwnKeys = none) ∧
    worldA.defaultGlobalOwnKeys = some (filterWindowKeys paramsA.redWindowKeys) :=
  ⟨rfl,
   default_keys_derived_from_red_window
     (h := (rfl : createIframeVirtualEnvironment paramsA (JSVal.objV 0) none
        World.start = (Except.ok resA, worldA)))
     (by decide) rfl⟩

theorem childrenOf_appendChildAt (m : List (Nat × List Nat)) (p c : Nat) :
    childrenOf (appendChildAt m p c) p = childrenOf m p ++ [c] := by
  unfold appendChildAt childrenOf
  rw [lookupA_setA_self]
  rfl

theorem childrenOf_removeChildAt (m : List (Nat × List Nat)) (p c : Nat) :
    childrenOf (removeChildAt m p c) p = (childrenOf m p).erase c := by
  unfold removeChildAt childrenOf
  rw [lookupA_setA_self]
  rfl

/-- Counterexample to C7 as stated: with no `body`, the iframe is appended
under the document's *last child* (node 21), and the document node itself
(node 20) gains no child. -/
theorem iframe_parent_fallback_counterexample :
    docNoBody.body = none ∧
    docNoBody.docId = 20 ∧
    docNoBody.lastChild = some 21 ∧
    (createDetachableIframe docNoBody World.start).1 =
      some { iframeId := 0, parentId := 21,
             events := [IframeEvent.createdElement 0, IframeEvent.styleDisplayNone 0,
                        IframeEvent.sandboxAttributeSet 0 IFRAME_SANDBOX_ATTRIBUTE_VALUE,
                        IframeEvent.appendedChild 21 0] } ∧
    childrenOf (createDetachableIframe docNoBody World.start).2.children 21 = [0] ∧
    childrenOf (createDetachableIframe docNoBody World.start).2.children 20 = [] := by
  decide

/-- C7 amended: `createDetachableIframe` appends the iframe as the last
child of the document's `body`, or of the document's *last child* when no
`body` exists. -/
theorem iframe_attached_last_child_of_body_or_lastChild {d : DocRef} {w : World}
    {ifr : CreatedIframe} {w2 : World}
    (h : createDetachableIframe d w = (some ifr, w2)) :
    (∀ b, d.body = some b → ifr.parentId = b) ∧
    (d.body = none → d.lastChild = some ifr.parentId) ∧
    childrenOf w2.children ifr.parentId =
      childrenOf w.children ifr.parentId ++ [ifr.iframeId] := by
  obtain ⟨hp, hid, hev, hw⟩ := createDetachableIframe_some h
  rw [resolveIframeParent] at hp
  refine ⟨?_, ?_, ?_⟩
  · intro b hb
    rw [hb] at hp
    exact (Option.some_injective _ hp).symm
  · intro hb
    rw [hb] at hp
    exact hp
  · rw [hw, hid]
    exact childrenOf_appendChildAt w.children ifr.parentId w.nextId

/-- Witness for the amended C7 on the fallback fixture. -/
theorem iframe_attached_last_child_witness :
    (∀ b, docNoBody.body = some b → ciNB.parentId = b) ∧
    (docNoBody.body = none → docNoBody.lastChild = some ciNB.parentId) ∧
    childrenOf wNB.children ciNB.parentId =
      childrenOf World.start.children ciNB.parentId ++ [ciNB.iframeId] :=
  iframe_attached_last_child_of_body_or_lastChild
    (rfl : createDetachableIframe docNoBody World.start = (some ciNB, wNB))

theorem worldInv_start : WorldInv World.start :=
  ⟨List.nodup_nil, List.nodup_nil, by simp [World.start], by simp [World.start]⟩

/-- Full characterization of one successful call's effect on the connector
cache: a hit returns the cached connector and leaves the map unchanged, a
miss stores a fresh connector, and the identity counter advances by at
least two. -/
theorem run_ok_cache_spec {p : Params} {gid : Nat} {br : BlueRefs}
    {o : Option EnvOptions} {w : World} {r : EnvResult} {w' : World}
    (h : createIframeVirtualEnvironment p (JSVal.objV gid) o w = (Except.ok r, w'))
    (hres : p.resolve gid = some br) :
    (∀ c, lookupA w.blueDocumentToBlueCreateHooksCallbackMap br.document.docId = some c →
      r.blueConnectorId = c ∧
      w'.blueDocumentToBlueCreateHooksCallbackMap =
        w.blueDocumentToBlueCreateHooksCallbackMap) ∧
    (lookupA w.blueDocumentToBlueCreateHooksCallbackMap br.document.docId = none →
      r.blueConnectorId = w.nextId + 1 ∧
      w'.blueDocumentToBlueCreateHooksCallbackMap =
        setA w.blueDocumentToBlueCreateHooksCallbackMap br.document.docId
          (w.nextId + 1)) ∧
    w.nextId + 2 ≤ w'.nextId := by
  obtain ⟨gid', br', ifr, w2, hg', hres', hifr, hcfg⟩ := run_ok_elim h
  cases hg'
  rw [hres] at hres'
  cases hres'
  have hr : r = (configure p (o.getD {}) br ifr w2).1 := (congrArg Prod.fst hcfg).symm
  have hw' : w' = (configure p (o.getD {}) br ifr w2).2 := (congrArg Prod.snd hcfg).symm
  subst hr
  subst hw'
  obtain ⟨hp, hid, hev, hw2⟩ := createDetachableIframe_some hifr
  subst hw2
  have hmap3 := populateDefaultKeys_map p (o.getD {}).globalObjectShape
    { w with
       nextId := w.nextId + 1
       children := appendChildAt w.children ifr.parentId w.nextId }
  have hnext3 := populateDefaultKeys_nextId p (o.getD {}).globalObjectShape
    { w with
       nextId := w.nextId + 1
       children := appendChildAt w.children ifr.parentId w.nextId }
  refine ⟨?_, ?_, ?_⟩
  · intro c hc
    have hc3 : lookupA (populateDefaultKeys p (o.getD {}).globalObjectShape
        { w with
           nextId := w.nextId + 1
           children := appendChildAt w.children ifr.parentId w.nextId }).blueDocumentToBlueCreateHooksCallbackMap
        br.document.docId = some c := by
      rw [hmap3]; exact hc
    have hhit := acquireBlueConnector_hit hc3
    constructor
    · rw [configure_fst_blueConnectorId, hhit]
    · rw [configure_snd_map, hhit]
      exact hmap3
  · intro hc
    have hc3 : lookupA (populateDefaultKeys p (o.getD {}).globalObjectShape
        { w with
           nextId := w.nextId + 1
           children := appendChildAt w.children ifr.parentId w.nextId }).blueDocumentToBlueCreateHooksCallbackMap
        br.document.docId = none := by
      rw [hmap3]; exact hc
    have hmiss := acquireBlueConnector_miss hc3
    constructor
    · rw [configure_fst_blueConnectorId, hmiss, hnext3]
    · rw [configure_snd_map, hmiss]
      simp only [hmap3, hnext3]
  · rw [configure_snd_nextId]
    by_cases hc : lookupA w.blueDocumentToBlueCreateHooksCallbackMap
        br.document.docId = none
    · have hc3 : lookupA (populateDefaultKeys p (o.getD {}).globalObjectShape
        { w with
           nextId := w.nextId + 1
           children := appendChildAt w.children ifr.parentId w.nextId }).blueDocumentToBlueCreateHooksCallbackMap
          br.document.docId = none := by
        rw [hmap3]; exact hc
      have hmiss := acquireBlueConnector_miss hc3
      rw [hmiss]
      simp [hnext3]
    · rcases Option.ne_none_iff_exists'.mp hc with ⟨c, hc'⟩
      have hc3 : lookupA (populateDefaultKeys p (o.getD {}).globalObjectShape
        { w with
           nextId := w.nextId + 1
           children := appendChildAt w.children ifr.parentId w.nextId }).blueDocumentToBlueCreateHooksCallbackMap
          br.document.docId = some c := by
        rw [hmap3]; exact hc'
      have hhit := acquireBlueConnector_hit hc3
      rw [hhit]
      simp [hnext3]

/-- Any member of a recorded child list is bounded by the counter. -/
theorem childrenOf_mem_lt {w : World} (hinv : WorldInv w) {P c : Nat}
    (hc : c ∈ childrenOf w.children P) : c < w.nextId := by
  unfold childrenOf at hc
  cases hl : lookupA w.children P with
  | none => rw [hl] at hc; simp at hc
  | some cs =>
      rw [hl] at hc
      exact hinv.childLt _ (lookupA_some_mem hl) _ hc

theorem erase_append_self {l : List Nat} {a : Nat} (ha : a ∉ l) :
    (l ++ [a]).erase a = l := by
  rw [List.erase_append_right _ ha, List.erase_cons_head, List.append_nil]

/-- Appending a nodup-preserving fresh element keeps a list nodup. -/
theorem nodup_append_singleton {α : Type} {l : List α} {a : α}
    (h : l.Nodup) (ha : a ∉ l) : (l ++ [a]).Nodup := by
  refine List.nodup_append.mpr ⟨h, List.nodup_singleton a, fun x hx hxa => ?_⟩
  rw [List.mem_singleton] at hxa
  subst hxa
  exact ha hx

/-- The lifecycle effect of one successful call: the iframe identity is the
former counter value, the effective keep-alive flag and the red-document
operations come from the options, and the final tree is the appended iframe,
removed again unless keep-alive was requested. -/
theorem run_ok_children_spec {p : Params} {g : JSVal} {o : Option EnvOptions}
    {w : World} {r : EnvResult} {w' : World}
    (h : createIframeVirtualEnvironment p g o w = (Except.ok r, w')) :
    r.iframeId = w.nextId ∧
    r.keepAliveUsed = (o.getD {}).keepAlive.getD false ∧
    r.redDocOps =
      (if (o.getD {}).keepAlive.getD false then [DocOp.openDoc, DocOp.closeDoc]
       else []) ∧
    w'.children =
      (if (o.getD {}).keepAlive.getD false then
        appendChildAt w.children r.iframeParentId w.nextId
      else
        removeChildAt (appendChildAt w.children r.iframeParentId w.nextId)
          r.iframeParentId w.nextId) := by
  obtain ⟨gid, br, ifr, w2, hg, hres, hifr, hcfg⟩ := run_ok_elim h
  have hr : r = (configure p (o.getD {}) br ifr w2).1 := (congrArg Prod.fst hcfg).symm
  have hw' : w' = (configure p (o.getD {}) br ifr w2).2 := (congrArg Prod.snd hcfg).symm
  subst hr
  subst hw'
  obtain ⟨hp, hid, hev, hw2⟩ := createDetachableIframe_some hifr
  subst hw2
  refine ⟨?_, configure_fst_keepAliveUsed p (o.getD {}) br ifr _,
          configure_fst_redDocOps p (o.getD {}) br ifr _, ?_⟩
  · rw [configure_fst_iframeId]
    exact hid
  · rw [configure_snd_children, configure_fst_iframeParentId]
    simp [populateDefaultKeys_children, hid]

/-- One successful call leaves the cached connector retrievable under the
resolved document, does not disturb other cache entries, and keeps the
returned connector below the advanced counter. -/
theorem run_ok_store {p : Params} {gid : Nat} {br : BlueRefs}
    {o : Option EnvOptions} {w : World} {r : EnvResult} {w' : World}
    (hinv : WorldInv w)
    (h : createIframeVirtualEnvironment p (JSVal.objV gid) o w = (Except.ok r, w'))
    (hres : p.resolve gid = some br) :
    lookupA w'.blueDocumentToBlueCreateHooksCallbackMap br.document.docId =
      some r.blueConnectorId ∧
    (∀ d, d ≠ br.document.docId →
      lookupA w'.blueDocumentToBlueCreateHooksCallbackMap d =
        lookupA w.blueDocumentToBlueCreateHooksCallbackMap d) ∧
    r.blueConnectorId < w'.nextId := by
  obtain ⟨hhit, hmiss, hnext⟩ := run_ok_cache_spec h hres
  by_cases hc : lookupA w.blueDocumentToBlueCreateHooksCallbackMap
      br.document.docId = none
  · obtain ⟨hblue, hmap⟩ := hmiss hc
    refine ⟨?_, ?_, ?_⟩
    · rw [hmap, hblue, lookupA_setA_self]
    · intro d hd
      rw [hmap, lookupA_setA_ne _ _ _ _ hd]
    · omega
  · rcases Option.ne_none_iff_exists'.mp hc with ⟨c, hc'⟩
    obtain ⟨hblue, hmap⟩ := hhit c hc'
    refine ⟨?_, ?_, ?_⟩
    · rw [hmap, hblue]
      exact hc'
    · intro d hd
      rw [hmap]
    · have := hinv.mapValsLt _ (lookupA_some_mem hc')
      omega

/-- A successful call preserves the machine-state invariant. -/
theorem run_ok_preserves_inv {p : Params} {gid : Nat} {br : BlueRefs}
    {o : Option EnvOptions} {w : World} {r : EnvResult} {w' : World}
    (hinv : WorldInv w)
    (h : createIframeVirtualEnvironment p (JSVal.objV gid) o w = (Except.ok r, w'))
    (hres : p.resolve gid = some br) : WorldInv w' := by
  obtain ⟨hhit, hmiss, hnext⟩ := run_ok_cache_spec h hres
  obtain ⟨hifid, hka, hops, hch⟩ := run_ok_children_spec h
  have hchildLt : ∀ pc ∈ w'.children, ∀ c ∈ pc.2, c < w'.nextId := by
    have happ : ∀ pc ∈ appendChildAt w.children r.iframeParentId w.nextId,
        ∀ c ∈ pc.2, c < w'.nextId := by
      intro pc hpc c hc
      rcases mem_setA hpc with hpc' | hpc'
      · subst hpc'
        rcases List.mem_append.mp hc with hc' | hc'
        · have := childrenOf_mem_lt hinv hc'
          omega
        · rw [List.mem_singleton] at hc'
          subst hc'
          omega
      · have := hinv.childLt _ hpc' _ hc
        omega
    rw [hch]
    split
    · exact happ
    · intro pc hpc c hc
      rcases mem_setA hpc with hpc' | hpc'
      · subst hpc'
        have hc' := List.mem_of_mem_erase hc
        rw [childrenOf_appendChildAt] at hc'
        rcases List.mem_append.mp hc' with hc'' | hc''
        · have := childrenOf_mem_lt hinv hc''
          omega
        · rw [List.mem_singleton] at hc''
          subst hc''
          omega
      · exact happ _ hpc' _ hc
  by_cases hc : lookupA w.blueDocumentToBlueCreateHooksCallbackMap
      br.document.docId = none
  · obtain ⟨hblue, hmap⟩ := hmiss hc
    have hmap' : w'.blueDocumentToBlueCreateHooksCallbackMap =
        w.blueDocumentToBlueCreateHooksCallbackMap ++
          [(br.document.docId, w.nextId + 1)] := by
      rw [hmap, setA_eq_append _ _ _ hc]
    refine ⟨?_, ?_, ?_, hchildLt⟩
    · rw [hmap']
      simp only [List.map_append, List.map_cons, List.map_nil]
      exact nodup_append_singleton hinv.mapKeysNodup (lookupA_none_not_mem hc)
    · rw [hmap']
      simp only [List.map_append, List.map_cons, List.map_nil]
      refine nodup_append_singleton hinv.mapValsNodup (fun hmem => ?_)
      rcases List.mem_map.mp hmem with ⟨kv, hkv, hkv2⟩
      have := hinv.mapValsLt _ hkv
      omega
    · intro kv hkv
      rw [hmap'] at hkv
      rcases List.mem_append.mp hkv with hkv' | hkv'
      · have := hinv.mapValsLt _ hkv'
        omega
      · rw [List.mem_singleton] at hkv'
        subst hkv'
        simp only []
        omega
  · rcases Option.ne_none_iff_exists'.mp hc with ⟨c, hc'⟩
    obtain ⟨hblue, hmap⟩ := hhit c hc'
    refine ⟨?_, ?_, ?_, hchildLt⟩
    · rw [hmap]
      exact hinv.mapKeysNodup
    · rw [hmap]
      exact hinv.mapValsNodup
    · intro kv hkv
      rw [hmap] at hkv
      have := hinv.mapValsLt _ hkv
      omega

/-- C2: per successful call, exactly one lifecycle outcome: with
`keepAlive` false or omitted the iframe is out of the host tree when the
call returns and the red document is untouched; with `keepAlive: true` it
stays attached and the red document is cycled exactly once (one open
immediately followed by one close). -/
theorem lifecycle_detach_or_preserve {p : Params} {g : JSVal}
    {o : Option EnvOptions} {w : World} {r : EnvResult} {w' : World}
    (hinv : WorldInv w)
    (h : createIframeVirtualEnvironment p g o w = (Except.ok r, w')) :
    Xor'
      (r.keepAliveUsed = false ∧
        r.iframeId ∉ childrenOf w'.children r.iframeParentId ∧
        r.redDocOps = [])
      (r.keepAliveUsed = true ∧
        r.iframeId ∈ childrenOf w'.children r.iframeParentId ∧
        r.redDocOps = [DocOp.openDoc, DocOp.closeDoc]) := by
  obtain ⟨hifid, hka, hops, hch⟩ := run_ok_children_spec h
  have hfresh : w.nextId ∉ childrenOf w.children r.iframeParentId :=
    fun hmem => lt_irrefl _ (childrenOf_mem_lt hinv hmem)
  cases hkab : (o.getD {}).keepAlive.getD false
  case false =>
    rw [hkab] at hka hops hch
    simp only [Bool.false_eq_true, if_false] at hops hch
    left
    refine ⟨⟨hka, ?_, hops⟩, ?_⟩
    · rw [hifid, hch, childrenOf_removeChildAt, childrenOf_appendChildAt,
        erase_append_self hfresh]
      exact hfresh
    · rintro ⟨hka2, -, -⟩
      rw [hka] at hka2
      exact Bool.noConfusion hka2
  case true =>
    rw [hkab] at hka hops hch
    simp only [if_true] at hops hch
    right
    refine ⟨⟨hka, ?_, hops⟩, ?_⟩
    · rw [hifid, hch, childrenOf_appendChildAt]
      simp
    · rintro ⟨hka2, -, -⟩
      rw [hka] at hka2
      exact Bool.noConfusion hka2

/-- Witness for C2 on the keep-alive fixture run. -/
theorem lifecycle_detach_or_preserve_witness :
    Xor'
      (resKA.keepAliveUsed = false ∧
        resKA.iframeId ∉ childrenOf worldKA.children resKA.iframeParentId ∧
        resKA.redDocOps = [])
      (resKA.keepAliveUsed = true ∧
        resKA.iframeId ∈ childrenOf worldKA.children resKA.iframeParentId ∧
        resKA.redDocOps = [DocOp.openDoc, DocOp.closeDoc]) :=
  lifecycle_detach_or_preserve worldInv_start
    (rfl : createIframeVirtualEnvironment paramsA (JSVal.objV 0)
      (some optsKA) World.start = (Except.ok resKA, worldKA))

/-- C3: across two sequential successful calls, resolving to the same host
document yields the reference-identical blue connector, distinct documents
never share one, the first call's connector is still cached afterwards, and
the cache keeps at most one entry per document identity. -/
theorem connector_cache_reference_identity {p : Params}
    {o1 o2 : Option EnvOptions} {w0 w1 w2' : World} {r1 r2 : EnvResult}
    {gid1 gid2 : Nat} {br1 br2 : BlueRefs}
    (hinv : WorldInv w0)
    (hres1 : p.resolve gid1 = some br1) (hres2 : p.resolve gid2 = some br2)
    (h1 : createIframeVirtualEnvironment p (JSVal.objV gid1) o1 w0 =
      (Except.ok r1, w1))
    (h2 : createIframeVirtualEnvironment p (JSVal.objV gid2) o2 w1 =
      (Except.ok r2, w2')) :
    (br1.document.docId = br2.document.docId →
      r1.blueConnectorId = r2.blueConnectorId) ∧
    (br1.document.docId ≠ br2.document.docId →
      r1.blueConnectorId ≠ r2.blueConnectorId) ∧
    lookupA w2'.blueDocumentToBlueCreateHooksCallbackMap br1.document.docId =
      some r1.blueConnectorId ∧
    (w2'.blueDocumentToBlueCreateHooksCallbackMap.map Prod.fst).Nodup := by
  have hinv1 : WorldInv w1 := run_ok_preserves_inv hinv h1 hres1
  have hinv2 : WorldInv w2' := run_ok_preserves_inv hinv1 h2 hres2
  obtain ⟨hstore1, hframe1, hlt1⟩ := run_ok_store hinv h1 hres1
  obtain ⟨hstore2, hframe2, hlt2⟩ := run_ok_store hinv1 h2 hres2
  obtain ⟨hhit2, hmiss2, hnext2⟩ := run_ok_cache_spec h2 hres2
  refine ⟨?_, ?_, ?_, hinv2.mapKeysNodup⟩
  · intro heq
    exact (hhit2 r1.blueConnectorId (by rw [← heq]; exact hstore1)).1.symm
  · intro hne
    have hl1 : lookupA w2'.blueDocumentToBlueCreateHooksCallbackMap
        br1.document.docId = some r1.blueConnectorId := by
      rw [hframe2 _ hne]
      exact hstore1
    exact lookupA_vals_injective hinv2.mapValsNodup hne hl1 hstore2
  · by_cases heq : br1.document.docId = br2.document.docId
    · have hsame := (hhit2 r1.blueConnectorId (by rw [← heq]; exact hstore1)).1
      rw [heq, hstore2, hsame]
    · rw [hframe2 _ heq]
      exact hstore1

/-- Witness for C3 on the two fixture runs against distinct documents. -/
theorem connector_cache_reference_identity_witness :
    (refsA.document.docId = refsB.document.docId →
      resA.blueConnectorId = resB2.blueConnectorId) ∧
    (refsA.document.docId ≠ refsB.document.docId →
      resA.blueConnectorId ≠ resB2.blueConnectorId) ∧
    lookupA worldB2.blueDocumentToBlueCreateHooksCallbackMap
      refsA.document.docId = some resA.blueConnectorId ∧
    (worldB2.blueDocumentToBlueCreateHooksCallbackMap.map Prod.fst).Nodup :=
  connector_cache_reference_identity worldInv_start
    (rfl : paramsA.resolve 0 = some refsA)
    (rfl : paramsA.resolve 1 = some refsB)
    (rfl : createIframeVirtualEnvironment paramsA (JSVal.objV 0) none
      World.start = (Except.ok resA, worldA))
    (rfl : createIframeVirtualEnvironment paramsA (JSVal.objV 1) none
      worldA = (Except.ok resB2, worldB2))

end NearMembrane
